import Mathlib

/-!
Shallow embedding of the query/aggregation layer of the samsung-health
CLI (src/shealth/database.py, the scorer in src/shealth/cli.py and the
code tables in src/shealth/config.py).

Conventions of the embedding:
* instants are epoch milliseconds, modelled as `Int`;
* SQLite tables are Lean lists of row structures; the backing file is
  `Option DBState` (`none` = file absent);
* `datetime.now()` / today's midnight are passed explicitly as the
  `endMs` / `todayMs` parameters (the Python defaults them to the clock);
* SQL `WHERE` is `List.filter`, `ORDER BY` is `List.insertionSort`,
  `GROUP BY` is dedup-sorted keys plus per-key filtering (pandas
  `groupby` sorts keys ascending), SQL aggregates are folds;
* Python floats are modelled as `ℚ`; `round(x, 1)` is `round1`
  (round half to even, as Python rounds); `int(x)` is `intTrunc`;
* local-time day bucketing is modelled with a fixed UTC offset of zero
  (the timezone itself is not modelled; none of the properties proved
  here depend on the offset).
-/

namespace SHealth

/-- Epoch milliseconds. -/
abbrev Millis := Int

/-- `config.SLEEP_STAGES`: the sleep-stage code table (a Python dict);
`none` models a missing key. -/
def SLEEP_STAGES (c : Int) : Option String :=
  if c = 1 then some "Light"
  else if c = 4 then some "Deep"
  else if c = 5 then some "Awake"
  else if c = 6 then some "REM"
  else none

/-- `config.EXERCISE_TYPES` as an association list (code, name), in the
source's order. -/
def EXERCISE_TYPES_LIST : List (Int × String) :=
  [(0, "Unknown"), (2, "Badminton"), (4, "Weightlifting"), (8, "Boxing"),
   (10, "Cricket"), (12, "Dancing"), (14, "Elliptical"), (16, "Fencing"),
   (18, "Football (American)"), (20, "Frisbee"), (21, "Cycling"),
   (22, "Golf"), (24, "Gymnastics"), (26, "Handball"), (28, "HIIT"),
   (30, "Hiking"), (32, "Hockey"), (33, "Running"), (34, "Skating (Ice)"),
   (36, "Martial Arts"), (38, "Pilates"), (40, "Racquetball"),
   (42, "Rock Climbing"), (44, "Rowing"), (46, "Sailing"), (48, "Skating"),
   (50, "Skiing"), (52, "Snowboarding"), (53, "Walking"), (54, "Soccer"),
   (56, "Squash"), (58, "Swimming"), (60, "Table Tennis"), (61, "Hiking"),
   (62, "Tennis"), (64, "Volleyball"), (66, "Yoga"), (68, "Stretching")]

/-- `config.EXERCISE_TYPES` as a lookup; `none` models a missing key. -/
def EXERCISE_TYPES (c : Int) : Option String :=
  EXERCISE_TYPES_LIST.lookup c

/-- `EXERCISE_TYPES.get(x, f"Unknown ({x})")`. -/
def exerciseLabel (c : Int) : String :=
  (EXERCISE_TYPES c).getD ("Unknown (" ++ toString c ++ ")")

/-- `SLEEP_STAGES.get(stage_type, f"Unknown ({stage_type})")`. -/
def stageLabel (c : Int) : String :=
  (SLEEP_STAGES c).getD ("Unknown (" ++ toString c ++ ")")

/-! ### Rounding and truncation helpers -/

/-- Round a rational to the nearest integer, ties to even (Python's
`round` on a number it represents exactly). -/
def roundHalfEven (q : ℚ) : ℤ :=
  let f := ⌊q⌋
  if q - f < 1/2 then f
  else if (1:ℚ)/2 < q - f then f + 1
  else if f % 2 = 0 then f else f + 1

/-- Python `round(x, 1)`. -/
def round1 (q : ℚ) : ℚ := (roundHalfEven (q * 10) : ℚ) / 10

/-- Python `int(x)`: truncation toward zero. -/
def intTrunc (q : ℚ) : ℤ := q.num / (q.den : ℤ)

/-! ### Row types (one structure per SQLite table) -/

/-- A row of `sleep_session_record_table`. -/
structure SleepSessionRow where
  row_id : Int
  start_time : Millis
  end_time : Millis
  title : Option String
  notes : Option String
deriving DecidableEq, Repr

/-- A row of `sleep_stages_table`. -/
structure SleepStageRow where
  parent_key : Int
  stage_type : Int
  stage_start_time : Millis
  stage_end_time : Millis
deriving DecidableEq, Repr

/-- A row of `steps_record_table` (the columns the queries read). -/
structure StepsRow where
  start_time : Millis
  local_date_time_start_time : Millis
  count : Int
deriving DecidableEq, Repr

/-- A row of `heart_rate_record_table` (the columns the queries read). -/
structure HRRecordRow where
  row_id : Int
  start_time : Millis
deriving DecidableEq, Repr

/-- A row of `heart_rate_record_series_table`. `epoch_millis` is the
sample's own instant; the queries never read it. -/
structure HRSeriesRow where
  parent_key : Int
  beats_per_minute : Int
  epoch_millis : Millis
deriving DecidableEq, Repr

/-- A row of `exercise_session_record_table`. -/
structure ExerciseRow where
  row_id : Int
  start_time : Millis
  end_time : Millis
  exercise_type : Int
  title : Option String
  notes : Option String
deriving DecidableEq, Repr

/-- A row of `oxygen_saturation_record_table`. -/
structure Spo2Row where
  time : Millis
  percentage : ℚ
deriving DecidableEq, Repr

/-- The contents of the SQLite file. -/
structure DBState where
  sleep_session_record_table : List SleepSessionRow := []
  sleep_stages_table : List SleepStageRow := []
  steps_record_table : List StepsRow := []
  heart_rate_record_table : List HRRecordRow := []
  heart_rate_record_series_table : List HRSeriesRow := []
  exercise_session_record_table : List ExerciseRow := []
  oxygen_saturation_record_table : List Spo2Row := []
deriving DecidableEq, Repr

/-- A freshly created store with all tables present but empty. -/
def emptyDB : DBState := {}

/-- `HealthDatabase`: a path and the (possibly absent) backing file. -/
structure HealthDatabase where
  db_path : String
  file : Option DBState
deriving DecidableEq, Repr

/-- The message of the `FileNotFoundError` raised by
`HealthDatabase.connection` when the backing file is absent. -/
def storeNotFoundMsg (path : String) : String :=
  "Database not found at " ++ path ++ ". Run \x27shealth sync\x27 first."

/-- `HealthDatabase.connection`: checks existence before any store
access; absent file raises, modelled as `Except.error`. -/
def connection (db : HealthDatabase) : Except String DBState :=
  match db.file with
  | none => .error (storeNotFoundMsg db.db_path)
  | some s => .ok s

/-! ### Time windows -/

/-- Milliseconds in a day. -/
def dayMs : Int := 86400000

/-- `start_date = end_date - timedelta(days=days)` in epoch ms. -/
def windowStart (days : ℕ) (endMs : Millis) : Millis :=
  endMs - days * dayMs

/-- SQLite `date(t/1000, 'unixepoch')` as a day ordinal. -/
def dayOf (t : Millis) : Int := (t / 1000) / 86400

/-! ### List helpers (SQL ORDER BY / GROUP BY, Python dict) -/

/-- `ORDER BY key DESC` (stable, as SQLite with a deterministic model). -/
def sortDescBy {α : Type} (key : α → Int) (l : List α) : List α :=
  @List.insertionSort α (fun a b => key b ≤ key a) (fun a b => Int.decLe _ _) l

/-- `ORDER BY key ASC`. -/
def sortAscBy {α : Type} (key : α → Int) (l : List α) : List α :=
  @List.insertionSort α (fun a b => key a ≤ key b) (fun a b => Int.decLe _ _) l

/-- Distinct group keys, ascending (pandas `groupby` sorts keys). -/
def sortedKeysAsc (l : List Int) : List Int := sortAscBy id l.dedup

/-- Distinct group keys, descending (SQL `GROUP BY k ORDER BY k DESC`). -/
def sortedKeysDesc (l : List Int) : List Int := sortDescBy id l.dedup

/-- Minimum of a list of integers (SQL `MIN`; 0 on empty, unused there). -/
def listMinI : List Int → Int
  | [] => 0
  | a :: l => l.foldl min a

/-- Maximum of a list of integers (SQL `MAX`; 0 on empty, unused there). -/
def listMaxI : List Int → Int
  | [] => 0
  | a :: l => l.foldl max a

/-- Minimum of a list of rationals. -/
def listMinQ : List ℚ → ℚ
  | [] => 0
  | a :: l => l.foldl min a

/-- Maximum of a list of rationals. -/
def listMaxQ : List ℚ → ℚ
  | [] => 0
  | a :: l => l.foldl max a

/-- Python `d[k] = v` on an insertion-ordered dict rendered as an
association list: an existing key keeps its position and gets the new
value, a new key is appended. -/
def dictInsert {β : Type} (k : String) (v : β) (l : List (String × β)) :
    List (String × β) :=
  if l.any (fun p => p.1 == k) then
    l.map (fun p => if p.1 == k then (k, v) else p)
  else l ++ [(k, v)]

/-! ### Record accessors (`HealthDatabase` methods) -/

/-- An output row of `get_sleep_sessions` (instants kept as epoch ms;
the SQL converts them to local datetime strings for display, which is
order-preserving and lossless). -/
structure SleepSessionOut where
  row_id : Int
  start_time : Millis
  end_time : Millis
  duration_minutes : ℚ
  title : Option String
  notes : Option String
deriving DecidableEq, Repr

/-- The row conversion in the `get_sleep_sessions` SELECT. -/
def toSleepOut (r : SleepSessionRow) : SleepSessionOut :=
  ⟨r.row_id, r.start_time, r.end_time,
    ((r.end_time - r.start_time : ℤ) : ℚ) / 60000, r.title, r.notes⟩

/-- The WHERE clause of `get_sleep_sessions`:
`start_time >= start_ms AND start_time <= end_ms`. -/
def sleepSessionsFiltered (s : DBState) (days : ℕ) (endMs : Millis) :
    List SleepSessionRow :=
  s.sleep_session_record_table.filter fun r =>
    decide (windowStart days endMs ≤ r.start_time) && decide (r.start_time ≤ endMs)

/-- `HealthDatabase.get_sleep_sessions`. -/
def get_sleep_sessions (db : HealthDatabase) (days : ℕ) (endMs : Millis) :
    Except String (List SleepSessionOut) :=
  (connection db).map fun s =>
    sortDescBy (·.start_time) ((sleepSessionsFiltered s days endMs).map toSleepOut)

/-- An output row of `get_sleep_stages`. `stage_name` is
`df["stage_type"].map(SLEEP_STAGES)`: a plain dict map, so an unmapped
code yields a missing value (pandas NaN), modelled as `none`. -/
structure SleepStageOut where
  stage_type : Int
  start_time : Millis
  end_time : Millis
  duration_minutes : ℚ
  stage_name : Option String
deriving DecidableEq, Repr

/-- The WHERE clause of `get_sleep_stages`: `parent_key = ?`. -/
def stagesFiltered (s : DBState) (sessionId : Int) : List SleepStageRow :=
  s.sleep_stages_table.filter fun r => decide (r.parent_key = sessionId)

/-- The row conversion in the `get_sleep_stages` SELECT, plus the
`stage_name` column added by the dict map. -/
def toStageOut (r : SleepStageRow) : SleepStageOut :=
  ⟨r.stage_type, r.stage_start_time, r.stage_end_time,
    ((r.stage_end_time - r.stage_start_time : ℤ) : ℚ) / 60000,
    SLEEP_STAGES r.stage_type⟩

/-- `HealthDatabase.get_sleep_stages`. -/
def get_sleep_stages (db : HealthDatabase) (sessionId : Int) :
    Except String (List SleepStageOut) :=
  (connection db).map fun s =>
    (sortAscBy (·.stage_start_time) (stagesFiltered s sessionId)).map toStageOut

/-- `HealthDatabase.get_sleep_stage_summary`: group the session's stages
by `stage_type` (pandas sorts group keys ascending), sum
`duration_minutes` per group, and key the result dict by
`SLEEP_STAGES.get(stage_type, f-string unknown label)`. -/
def get_sleep_stage_summary (db : HealthDatabase) (sessionId : Int) :
    Except String (List (String × ℚ)) :=
  (get_sleep_stages db sessionId).map fun stages =>
    if stages.isEmpty then []
    else
      (sortedKeysAsc (stages.map (·.stage_type))).foldl
        (fun acc c =>
          dictInsert (stageLabel c)
            (((stages.filter fun r => decide (r.stage_type = c)).map
                (·.duration_minutes)).sum)
            acc)
        []

/-- The WHERE clause of `get_daily_steps`. -/
def stepsFiltered (s : DBState) (days : ℕ) (endMs : Millis) : List StepsRow :=
  s.steps_record_table.filter fun r =>
    decide (windowStart days endMs ≤ r.local_date_time_start_time) &&
      decide (r.local_date_time_start_time ≤ endMs)

/-- `HealthDatabase.get_daily_steps`: `SUM(count)` grouped by
`date(local_date_time_start_time/1000, 'unixepoch')`, date descending.
The date is modelled as a day ordinal (string dates order identically). -/
def get_daily_steps (db : HealthDatabase) (days : ℕ) (endMs : Millis) :
    Except String (List (Int × Int)) :=
  (connection db).map fun s =>
    let rows := stepsFiltered s days endMs
    (sortedKeysDesc (rows.map fun r => dayOf r.local_date_time_start_time)).map
      fun d =>
        (d, ((rows.filter fun r => decide (dayOf r.local_date_time_start_time = d)).map
              (·.count)).sum)

/-- The JOIN of `heart_rate_record_series_table s` with
`heart_rate_record_table h ON s.parent_key = h.row_id`. -/
def hrJoin (s : DBState) : List (HRSeriesRow × HRRecordRow) :=
  s.heart_rate_record_series_table.flatMap fun smp =>
    (s.heart_rate_record_table.filter fun h => decide (smp.parent_key = h.row_id)).map
      fun h => (smp, h)

/-- The joined rows kept by the heart-rate aggregates:
`h.start_time >= start_ms AND h.start_time <= end_ms`. The sample's own
instant is never consulted. -/
def hr_window_rows (s : DBState) (startMs endMs : Millis) :
    List (HRSeriesRow × HRRecordRow) :=
  (hrJoin s).filter fun p =>
    decide (startMs ≤ p.2.start_time) && decide (p.2.start_time ≤ endMs)

/-- The result dict of `get_heart_rate_stats`. -/
structure HRStats where
  avg_hr : ℚ
  min_hr : Int
  max_hr : Int
  sample_count : ℕ
deriving DecidableEq, Repr

/-- `HealthDatabase.get_heart_rate_stats`. -/
def get_heart_rate_stats (db : HealthDatabase) (days : ℕ) (endMs : Millis) :
    Except String HRStats :=
  (connection db).map fun s =>
    let rows := hr_window_rows s (windowStart days endMs) endMs
    let bpm : List Int := rows.map (·.1.beats_per_minute)
    if rows.isEmpty then ⟨0, 0, 0, 0⟩
    else
      ⟨round1 ((bpm.sum : ℚ) / (bpm.length : ℚ)), listMinI bpm, listMaxI bpm,
        rows.length⟩

/-- One output row of `get_daily_heart_rate`. -/
structure DailyHR where
  date : Int
  avg_hr : ℚ
  min_hr : Int
  max_hr : Int
  samples : ℕ
deriving DecidableEq, Repr

/-- Round half away from zero (SQLite `ROUND`). -/
def roundHalfAway (q : ℚ) : ℤ :=
  if q < 0 then -⌊-q + 1/2⌋ else ⌊q + 1/2⌋

/-- SQLite `ROUND(x, 1)`. -/
def round1sql (q : ℚ) : ℚ := (roundHalfAway (q * 10) : ℚ) / 10

/-- `HealthDatabase.get_daily_heart_rate`: the same join and window as
`get_heart_rate_stats`, grouped by the local day of the parent
session's start, date descending. -/
def get_daily_heart_rate (db : HealthDatabase) (days : ℕ) (endMs : Millis) :
    Except String (List DailyHR) :=
  (connection db).map fun s =>
    let rows := hr_window_rows s (windowStart days endMs) endMs
    (sortedKeysDesc (rows.map fun p => dayOf p.2.start_time)).map fun d =>
      let g := rows.filter fun p => decide (dayOf p.2.start_time = d)
      let bpm : List Int := g.map (·.1.beats_per_minute)
      ⟨d, round1sql ((bpm.sum : ℚ) / (bpm.length : ℚ)), listMinI bpm,
        listMaxI bpm, g.length⟩

/-- An output row of `get_workouts`; `exercise_name` is computed with
`EXERCISE_TYPES.get(x, f"Unknown ({x})")`, so it is always present. -/
structure ExerciseOut where
  row_id : Int
  start_time : Millis
  end_time : Millis
  duration_minutes : ℚ
  exercise_type : Int
  title : Option String
  notes : Option String
  exercise_name : String
deriving DecidableEq, Repr

/-- The WHERE clause of `get_workouts` (window plus the optional
exact-match `exercise_type` filter). -/
def workoutsFiltered (s : DBState) (days : ℕ) (endMs : Millis)
    (exFilter : Option Int) : List ExerciseRow :=
  s.exercise_session_record_table.filter fun r =>
    decide (windowStart days endMs ≤ r.start_time) && decide (r.start_time ≤ endMs) &&
      (match exFilter with
       | none => true
       | some t => decide (r.exercise_type = t))

/-- The row conversion in the `get_workouts` SELECT. -/
def toExerciseOut (r : ExerciseRow) : ExerciseOut :=
  ⟨r.row_id, r.start_time, r.end_time,
    ((r.end_time - r.start_time : ℤ) : ℚ) / 60000, r.exercise_type, r.title,
    r.notes, exerciseLabel r.exercise_type⟩

/-- `HealthDatabase.get_workouts`. -/
def get_workouts (db : HealthDatabase) (days : ℕ) (endMs : Millis)
    (exFilter : Option Int) : Except String (List ExerciseOut) :=
  (connection db).map fun s =>
    sortDescBy (·.start_time) ((workoutsFiltered s days endMs exFilter).map toExerciseOut)

/-- The per-type entry of `get_workout_summary`. -/
structure WorkoutTypeStats where
  count : ℕ
  total_minutes : ℚ
  avg_minutes : ℚ
deriving DecidableEq, Repr

/-- The result dict of `get_workout_summary`. -/
structure WorkoutSummary where
  total_workouts : ℕ
  total_minutes : ℚ
  by_type : List (String × WorkoutTypeStats)
deriving DecidableEq, Repr

/-- `HealthDatabase.get_workout_summary`: group the window's workouts by
`exercise_type` (pandas sorts group keys ascending); the `by_type` dict
is keyed by `EXERCISE_TYPES.get(exercise_type, f-string unknown label)`. -/
def get_workout_summary (db : HealthDatabase) (days : ℕ) (endMs : Millis) :
    Except String WorkoutSummary :=
  (get_workouts db days endMs none).map fun ws =>
    if ws.isEmpty then ⟨0, 0, []⟩
    else
      let by_type :=
        (sortedKeysAsc (ws.map (·.exercise_type))).foldl
          (fun acc c =>
            let g := ws.filter fun w => decide (w.exercise_type = c)
            dictInsert (exerciseLabel c)
              ⟨g.length, round1 ((g.map (·.duration_minutes)).sum),
                round1 (((g.map (·.duration_minutes)).sum) / (g.length : ℚ))⟩
              acc)
          []
      ⟨ws.length, round1 ((ws.map (·.duration_minutes)).sum), by_type⟩

/-- An output row of `get_spo2_readings`. -/
structure Spo2Out where
  time : Millis
  date : Int
  spo2 : ℚ
deriving DecidableEq, Repr

/-- The WHERE clause of `get_spo2_readings`: `time >= ? AND time <= ?`. -/
def spo2Filtered (s : DBState) (days : ℕ) (endMs : Millis) : List Spo2Row :=
  s.oxygen_saturation_record_table.filter fun r =>
    decide (windowStart days endMs ≤ r.time) && decide (r.time ≤ endMs)

/-- `HealthDatabase.get_spo2_readings`. -/
def get_spo2_readings (db : HealthDatabase) (days : ℕ) (endMs : Millis) :
    Except String (List Spo2Out) :=
  (connection db).map fun s =>
    (sortDescBy (·.time) (spo2Filtered s days endMs)).map fun r =>
      ⟨r.time, dayOf r.time, r.percentage⟩

/-- The result dict of `get_spo2_stats`. -/
structure Spo2Stats where
  avg_spo2 : ℚ
  min_spo2 : Int
  max_spo2 : Int
  count : ℕ
deriving DecidableEq, Repr

/-- `HealthDatabase.get_spo2_stats`. -/
def get_spo2_stats (db : HealthDatabase) (days : ℕ) (endMs : Millis) :
    Except String Spo2Stats :=
  (get_spo2_readings db days endMs).map fun readings =>
    if readings.isEmpty then ⟨0, 0, 0, 0⟩
    else
      let v := readings.map (·.spo2)
      ⟨round1 (v.sum / (v.length : ℚ)), intTrunc (listMinQ v),
        intTrunc (listMaxQ v), readings.length⟩

/-- `HealthDatabase.get_date_range`: MIN/MAX of `start_time` over the
union of four tables; NULL (no rows) or a falsy epoch-0 bound yields
`(None, None)`. -/
def get_date_range (db : HealthDatabase) :
    Except String (Option Millis × Option Millis) :=
  (connection db).map fun s =>
    let ts := s.sleep_session_record_table.map (·.start_time) ++
      s.steps_record_table.map (·.start_time) ++
      s.heart_rate_record_table.map (·.start_time) ++
      s.exercise_session_record_table.map (·.start_time)
    if ts.isEmpty then (none, none)
    else
      let mn := listMinI ts
      let mx := listMaxI ts
      if mn = 0 ∨ mx = 0 then (none, none) else (some mn, some mx)

/-! ### Today snapshot (`get_today_summary`) -/

/-- The result dict of `get_today_summary` (the formatted `date` string
is presentation only and not modelled). -/
structure TodaySummary where
  steps : Int
  sleep_hours : ℚ
  avg_hr : ℚ
  workouts : ℕ
  spo2 : Option Int
deriving DecidableEq, Repr

/-- Steps rows of today's half-open window
`local_date_time_start_time >= today AND < tomorrow`. -/
def todayStepsRows (s : DBState) (todayMs : Millis) : List StepsRow :=
  s.steps_record_table.filter fun r =>
    decide (todayMs ≤ r.local_date_time_start_time) &&
      decide (r.local_date_time_start_time < todayMs + dayMs)

/-- Sleep sessions whose `end_time` lies in `[today, tomorrow)`. -/
def todaySleepCandidates (s : DBState) (todayMs : Millis) : List SleepSessionRow :=
  s.sleep_session_record_table.filter fun r =>
    decide (todayMs ≤ r.end_time) && decide (r.end_time < todayMs + dayMs)

/-- `ORDER BY end_time DESC LIMIT 1` over the candidates. -/
def todaySleepPick (s : DBState) (todayMs : Millis) : Option SleepSessionRow :=
  (sortDescBy (·.end_time) (todaySleepCandidates s todayMs)).head?

/-- The heart-rate join rows whose parent session starts in
`[today, tomorrow)` (strict upper bound, unlike the period accessors). -/
def todayHRRows (s : DBState) (todayMs : Millis) :
    List (HRSeriesRow × HRRecordRow) :=
  (hrJoin s).filter fun p =>
    decide (todayMs ≤ p.2.start_time) && decide (p.2.start_time < todayMs + dayMs)

/-- Workout sessions starting in `[today, tomorrow)`. -/
def todayWorkoutRows (s : DBState) (todayMs : Millis) : List ExerciseRow :=
  s.exercise_session_record_table.filter fun r =>
    decide (todayMs ≤ r.start_time) && decide (r.start_time < todayMs + dayMs)

/-- `ORDER BY time DESC LIMIT 1` over today's SpO2 readings. -/
def todaySpo2Pick (s : DBState) (todayMs : Millis) : Option Spo2Row :=
  (sortDescBy (·.time)
    (s.oxygen_saturation_record_table.filter fun r =>
      decide (todayMs ≤ r.time) && decide (r.time < todayMs + dayMs))).head?

/-- `HealthDatabase.get_today_summary`, with today's midnight passed as
`todayMs`. Each `if row and row[...]` truthiness check of the source is
modelled as an explicit comparison with the falsy value. -/
def get_today_summary (db : HealthDatabase) (todayMs : Millis) :
    Except String TodaySummary :=
  (connection db).map fun s =>
    let stepsSum := ((todayStepsRows s todayMs).map (·.count)).sum
    let steps := if stepsSum = 0 then 0 else stepsSum
    let sleep_hours :=
      match todaySleepPick s todayMs with
      | none => 0
      | some r =>
        let h : ℚ := ((r.end_time - r.start_time : ℤ) : ℚ) / 3600000
        if h = 0 then 0 else round1 h
    let hrRows := todayHRRows s todayMs
    let avg : ℚ :=
      if hrRows.isEmpty then 0
      else ((hrRows.map (·.1.beats_per_minute)).sum : ℚ) / (hrRows.length : ℚ)
    let avg_hr := if avg = 0 then 0 else round1 avg
    let workouts := (todayWorkoutRows s todayMs).length
    let spo2 :=
      match todaySpo2Pick s todayMs with
      | none => none
      | some r => if r.percentage = 0 then none else some (intTrunc r.percentage)
    ⟨steps, sleep_hours, avg_hr, workouts, spo2⟩

/-! ### Composite energy scorer (`cli.report`, lines 595-598) -/

/-- `sleep_score = min(100, (sleep_avg / sleep_goal) * 100) if sleep_goal > 0 else 0`. -/
def sleep_score (sleep_avg sleep_goal : ℚ) : ℚ :=
  if 0 < sleep_goal then min 100 (sleep_avg / sleep_goal * 100) else 0

/-- `steps_score = min(100, (steps_avg / step_goal) * 100) if step_goal > 0 else 0`. -/
def steps_score (steps_avg step_goal : ℚ) : ℚ :=
  if 0 < step_goal then min 100 (steps_avg / step_goal * 100) else 0

/-- `workout_score = min(100, (total_workouts / (days / 7 * 3)) * 100)`. -/
def workout_score (total_workouts days : ℚ) : ℚ :=
  min 100 (total_workouts / (days / 7 * 3) * 100)

/-- `energy_score = sleep_score * 0.4 + steps_score * 0.3 + workout_score * 0.3`. -/
def energy_score (s st w : ℚ) : ℚ := s * 0.4 + st * 0.3 + w * 0.3

/-! ### Helper lemmas -/

theorem sortDescBy_perm {α : Type} (key : α → Int) (l : List α) :
    List.Perm (sortDescBy key l) l :=
  @List.perm_insertionSort α (fun a b => key b ≤ key a)
    (fun a b => Int.decLe _ _) l

theorem sortAscBy_perm {α : Type} (key : α → Int) (l : List α) :
    List.Perm (sortAscBy key l) l :=
  @List.perm_insertionSort α (fun a b => key a ≤ key b)
    (fun a b => Int.decLe _ _) l

theorem mem_sortDescBy {α : Type} {key : α → Int} {l : List α} {x : α} :
    x ∈ sortDescBy key l ↔ x ∈ l :=
  (sortDescBy_perm key l).mem_iff

theorem mem_sortAscBy {α : Type} {key : α → Int} {l : List α} {x : α} :
    x ∈ sortAscBy key l ↔ x ∈ l :=
  (sortAscBy_perm key l).mem_iff

theorem mem_sortedKeysAsc {l : List Int} {k : Int} :
    k ∈ sortedKeysAsc l ↔ k ∈ l := by
  rw [sortedKeysAsc, mem_sortAscBy, List.mem_dedup]

theorem mem_sortedKeysDesc {l : List Int} {k : Int} :
    k ∈ sortedKeysDesc l ↔ k ∈ l := by
  rw [sortedKeysDesc, mem_sortDescBy, List.mem_dedup]

theorem sortDescBy_sorted {α : Type} (key : α → Int) (l : List α) :
    (sortDescBy key l).Sorted fun a b => key b ≤ key a := by
  haveI : IsTotal α fun a b => key b ≤ key a := ⟨fun a b => le_total (key b) (key a)⟩
  haveI : IsTrans α fun a b => key b ≤ key a := ⟨fun _ _ _ h1 h2 => le_trans h2 h1⟩
  exact @List.sorted_insertionSort α (fun a b => key b ≤ key a)
    (fun a b => Int.decLe _ _) _ _ l

/-- `ORDER BY key DESC LIMIT 1` returns the row with the strictly
greatest key, when one exists. -/
theorem head_sortDescBy_strictMax {α : Type} (key : α → Int) (l : List α)
    (r : α) (hr : r ∈ l) (hmax : ∀ x ∈ l, x ≠ r → key x < key r) :
    (sortDescBy key l).head? = some r := by
  have hperm := sortDescBy_perm key l
  have hsorted := sortDescBy_sorted key l
  cases h : sortDescBy key l with
  | nil =>
    exact absurd (hperm.symm.subset hr) (by simp [h])
  | cons a t =>
    have ha : a ∈ l := hperm.subset (by simp [h])
    have hrmem : r ∈ a :: t := h ▸ hperm.symm.subset hr
    rw [h] at hsorted
    have hle := List.rel_of_sorted_cons hsorted
    rcases List.mem_cons.mp hrmem with hra | hrt
    · simp [hra]
    · by_cases hra : a = r
      · simp [hra]
      · exact absurd (hle r hrt) (not_le.mpr (hmax a ha hra))

theorem dictInsert_of_fresh {β : Type} (k : String) (v : β)
    (l : List (String × β)) (h : ∀ p ∈ l, p.1 ≠ k) :
    dictInsert k v l = l ++ [(k, v)] := by
  rw [dictInsert, if_neg]
  simp only [List.any_eq_true, beq_iff_eq, not_exists, not_and]
  intro p hp
  simpa using h p hp

/-- Building a Python dict by successive insertion of entries with
pairwise-distinct keys, none already present, appends them in order. -/
theorem foldl_dictInsert {β : Type} (f : Int → String) (g : Int → β) :
    ∀ (cs : List Int) (acc : List (String × β)),
      (∀ c ∈ cs, ∀ p ∈ acc, p.1 ≠ f c) → (cs.map f).Nodup →
      cs.foldl (fun a c => dictInsert (f c) (g c) a) acc =
        acc ++ cs.map fun c => (f c, g c)
  | [], acc, _, _ => by simp
  | c :: cs, acc, hfresh, hnd => by
    have hstep : dictInsert (f c) (g c) acc = acc ++ [(f c, g c)] :=
      dictInsert_of_fresh _ _ _ (hfresh c (by simp))
    have hnd' : (cs.map f).Nodup := (List.nodup_cons.mp hnd).2
    have hfc : f c ∉ cs.map f := (List.nodup_cons.mp hnd).1
    have hfresh' : ∀ c' ∈ cs, ∀ p ∈ acc ++ [(f c, g c)], p.1 ≠ f c' := by
      intro c' hc' p hp
      rcases List.mem_append.mp hp with hpa | hps
      · exact hfresh c' (by simp [hc']) p hpa
      · simp only [List.mem_singleton] at hps
        subst hps
        intro hcon
        apply hfc
        rw [show f c = f c' from hcon]
        exact List.mem_map_of_mem f hc'
    calc (c :: cs).foldl (fun a c => dictInsert (f c) (g c) a) acc
        = cs.foldl (fun a c => dictInsert (f c) (g c) a) (acc ++ [(f c, g c)]) := by
          simp [hstep]
      _ = acc ++ [(f c, g c)] ++ cs.map fun c => (f c, g c) :=
          foldl_dictInsert f g cs _ hfresh' hnd'
      _ = acc ++ (c :: cs).map fun c => (f c, g c) := by simp

theorem sortAscBy_sorted {α : Type} (key : α → Int) (l : List α) :
    (sortAscBy key l).Sorted fun a b => key a ≤ key b := by
  haveI : IsTotal α fun a b => key a ≤ key b := ⟨fun a b => le_total (key a) (key b)⟩
  haveI : IsTrans α fun a b => key a ≤ key b := ⟨fun _ _ _ h1 h2 => le_trans h1 h2⟩
  exact @List.sorted_insertionSort α (fun a b => key a ≤ key b)
    (fun a b => Int.decLe _ _) _ _ l

theorem sortedKeysAsc_congr {l1 l2 : List Int} (h : List.Perm l1 l2) :
    sortedKeysAsc l1 = sortedKeysAsc l2 := by
  haveI : IsAntisymm Int fun a b : Int => id a ≤ id b :=
    ⟨fun a b h1 h2 => le_antisymm h1 h2⟩
  exact List.eq_of_perm_of_sorted
    ((sortAscBy_perm id l1.dedup).trans
      (h.dedup.trans (sortAscBy_perm id l2.dedup).symm))
    (sortAscBy_sorted id l1.dedup) (sortAscBy_sorted id l2.dedup)

theorem mem_hr_window_rows {s : DBState} {startMs endMs : Millis}
    {smp : HRSeriesRow} {h : HRRecordRow} :
    (smp, h) ∈ hr_window_rows s startMs endMs ↔
      smp ∈ s.heart_rate_record_series_table ∧
      h ∈ s.heart_rate_record_table ∧ smp.parent_key = h.row_id ∧
      startMs ≤ h.start_time ∧ h.start_time ≤ endMs := by
  simp only [hr_window_rows, hrJoin, List.mem_filter, List.mem_flatMap,
    List.mem_map, Bool.and_eq_true, decide_eq_true_eq]
  constructor
  · rintro ⟨⟨smp', hsmp', h', ⟨hh', hpar⟩, heq⟩, hlo, hhi⟩
    have h1 : smp' = smp := congrArg Prod.fst heq
    have h2 : h' = h := congrArg Prod.snd heq
    subst h1
    subst h2
    exact ⟨hsmp', hh', hpar, hlo, hhi⟩
  · rintro ⟨hsmp, hh, hpar, hlo, hhi⟩
    exact ⟨⟨smp, hsmp, h, ⟨hh, hpar⟩, rfl⟩, hlo, hhi⟩

/-! ### Claims -/

/-- C8: if the store's backing file is absent, every accessor fails with
the `FileNotFoundError` whose message names the expected path and tells
the user to run `shealth sync`; the error depends only on the path (it is
produced by the existence check before any table is read) and is returned,
not retried. -/
theorem C8_store_not_found :
    ∀ (p : String) (days : ℕ) (endMs todayMs : Millis) (sid : Int)
      (ex : Option Int),
      storeNotFoundMsg p =
        "Database not found at " ++ p ++ ". Run \x27shealth sync\x27 first." ∧
      get_sleep_sessions ⟨p, none⟩ days endMs = .error (storeNotFoundMsg p) ∧
      get_sleep_stages ⟨p, none⟩ sid = .error (storeNotFoundMsg p) ∧
      get_sleep_stage_summary ⟨p, none⟩ sid = .error (storeNotFoundMsg p) ∧
      get_daily_steps ⟨p, none⟩ days endMs = .error (storeNotFoundMsg p) ∧
      get_heart_rate_stats ⟨p, none⟩ days endMs = .error (storeNotFoundMsg p) ∧
      get_daily_heart_rate ⟨p, none⟩ days endMs = .error (storeNotFoundMsg p) ∧
      get_workouts ⟨p, none⟩ days endMs ex = .error (storeNotFoundMsg p) ∧
      get_workout_summary ⟨p, none⟩ days endMs = .error (storeNotFoundMsg p) ∧
      get_spo2_readings ⟨p, none⟩ days endMs = .error (storeNotFoundMsg p) ∧
      get_spo2_stats ⟨p, none⟩ days endMs = .error (storeNotFoundMsg p) ∧
      get_date_range ⟨p, none⟩ = .error (storeNotFoundMsg p) ∧
      get_today_summary ⟨p, none⟩ todayMs = .error (storeNotFoundMsg p) := by
  intro p days endMs todayMs sid ex
  exact ⟨rfl, rfl, rfl, rfl, rfl, rfl, rfl, rfl, rfl, rfl, rfl, rfl, rfl⟩

/-- C9: every accessor, run against a present but empty store, returns
the empty sequence or the zeroed summary and never an error. -/
theorem C9_empty_store :
    ∀ (p : String) (days : ℕ) (endMs todayMs : Millis) (sid : Int)
      (ex : Option Int),
      get_sleep_sessions ⟨p, some emptyDB⟩ days endMs = .ok [] ∧
      get_sleep_stages ⟨p, some emptyDB⟩ sid = .ok [] ∧
      get_sleep_stage_summary ⟨p, some emptyDB⟩ sid = .ok [] ∧
      get_daily_steps ⟨p, some emptyDB⟩ days endMs = .ok [] ∧
      get_heart_rate_stats ⟨p, some emptyDB⟩ days endMs = .ok ⟨0, 0, 0, 0⟩ ∧
      get_daily_heart_rate ⟨p, some emptyDB⟩ days endMs = .ok [] ∧
      get_workouts ⟨p, some emptyDB⟩ days endMs ex = .ok [] ∧
      get_workout_summary ⟨p, some emptyDB⟩ days endMs = .ok ⟨0, 0, []⟩ ∧
      get_spo2_readings ⟨p, some emptyDB⟩ days endMs = .ok [] ∧
      get_spo2_stats ⟨p, some emptyDB⟩ days endMs = .ok ⟨0, 0, 0, 0⟩ ∧
      get_date_range ⟨p, some emptyDB⟩ = .ok (none, none) ∧
      get_today_summary ⟨p, some emptyDB⟩ todayMs = .ok ⟨0, 0, 0, 0, none⟩ := by
  intro p days endMs todayMs sid ex
  exact ⟨rfl, rfl, rfl, rfl, rfl, rfl, rfl, rfl, rfl, rfl, rfl, rfl⟩

/-- C2: the energy score is the stated weighted sum of the three
sub-scores; each sub-score is 0 when its goal is non-positive, is capped
above at 100, but is not clamped below at 0; the composite is not
re-clamped; and at the reference input (8h sleep vs goal 8, 10000 steps
vs goal 10000, 3 workouts in 7 days) every sub-score and the composite
equal 100. -/
theorem C2_energy_score :
    (∀ a g : ℚ, g ≤ 0 → sleep_score a g = 0) ∧
    (∀ a g : ℚ, sleep_score a g ≤ 100) ∧
    (∀ a g : ℚ, g ≤ 0 → steps_score a g = 0) ∧
    (∀ a g : ℚ, steps_score a g ≤ 100) ∧
    (∀ t d : ℚ, workout_score t d ≤ 100) ∧
    (∀ s st w : ℚ, energy_score s st w = s * 0.4 + st * 0.3 + w * 0.3) ∧
    sleep_score (-8) 8 = -100 ∧
    energy_score (-100) (-100) (-100) = -100 ∧
    sleep_score 8 8 = 100 ∧ steps_score 10000 10000 = 100 ∧
    workout_score 3 7 = 100 ∧
    energy_score (sleep_score 8 8) (steps_score 10000 10000)
      (workout_score 3 7) = 100 := by
  have hs : sleep_score 8 8 = 100 := by
    rw [sleep_score, if_pos (by norm_num : (0:ℚ) < 8),
      show (8:ℚ) / 8 * 100 = 100 by norm_num, min_self]
  have hst : steps_score 10000 10000 = 100 := by
    rw [steps_score, if_pos (by norm_num : (0:ℚ) < 10000),
      show (10000:ℚ) / 10000 * 100 = 100 by norm_num, min_self]
  have hw : workout_score 3 7 = 100 := by
    rw [workout_score, show (3:ℚ) / (7 / 7 * 3) * 100 = 100 by norm_num,
      min_self]
  refine ⟨?_, ?_, ?_, ?_, ?_, fun s st w => rfl, ?_, ?_, hs, hst, hw, ?_⟩
  · intro a g h
    simp [sleep_score, not_lt.mpr h]
  · intro a g
    by_cases hg : 0 < g
    · simp only [sleep_score, if_pos hg]
      exact min_le_left (100 : ℚ) (a / g * 100)
    · simp [sleep_score, hg]
  · intro a g h
    simp [steps_score, not_lt.mpr h]
  · intro a g
    by_cases hg : 0 < g
    · simp only [steps_score, if_pos hg]
      exact min_le_left (100 : ℚ) (a / g * 100)
    · simp [steps_score, hg]
  · intro t d
    rw [workout_score]
    exact min_le_left (100 : ℚ) (t / (d / 7 * 3) * 100)
  · rw [sleep_score, if_pos (by norm_num : (0:ℚ) < 8),
      show (-8:ℚ) / 8 * 100 = -100 by norm_num]
    exact min_eq_right (by norm_num)
  · rw [energy_score]
    norm_num
  · rw [hs, hst, hw, energy_score]
    norm_num

/-- Witness for C2: the goal-non-positive hypotheses discharged at
concrete inputs. -/
theorem C2_energy_score_witness :
    sleep_score 5 0 = 0 ∧ steps_score 7 (-2) = 0 :=
  ⟨C2_energy_score.1 5 0 (by norm_num),
   C2_energy_score.2.2.1 7 (-2) (by norm_num)⟩

/-- C10: in the today snapshot, the `if row and row[...]` truthiness
checks make a most-recent SpO2 reading of percentage 0 report as absent
(`None`) rather than 0, and a most-recently-ended sleep session of zero
duration leave `sleep_hours` at its default 0. -/
theorem C10_falsy_today_values :
    ∀ (p : String) (s : DBState) (todayMs : Millis) (out : TodaySummary),
      get_today_summary ⟨p, some s⟩ todayMs = .ok out →
      (∀ r : Spo2Row, todaySpo2Pick s todayMs = some r → r.percentage = 0 →
        out.spo2 = none) ∧
      (∀ r : SleepSessionRow, todaySleepPick s todayMs = some r →
        r.end_time = r.start_time → out.sleep_hours = 0) := by
  intro p s todayMs out hout
  simp only [get_today_summary, connection, Except.map] at hout
  injection hout with hbody
  subst hbody
  constructor
  · intro r hpick hperc
    simp [hpick, hperc]
  · intro r hpick hend
    simp [hpick, hend]

/-- Witness for C10: a store holding one SpO2 reading of 0 taken today
and one zero-length sleep session ending today. -/
theorem C10_falsy_today_values_witness :
    (TodaySummary.mk 0 0 0 0 none).spo2 = none ∧
    (TodaySummary.mk 0 0 0 0 none).sleep_hours = 0 := by
  have hout : get_today_summary
      ⟨"p", some { sleep_session_record_table := [⟨1, 3600000, 3600000, none, none⟩],
                   oxygen_saturation_record_table := [⟨7200000, 0⟩] }⟩ 0 =
      .ok ⟨0, 0, 0, 0, none⟩ := by
    norm_num [get_today_summary, connection, Except.map, todayStepsRows,
      todaySleepPick, todaySleepCandidates, todayHRRows, todayWorkoutRows,
      todaySpo2Pick, hrJoin, sortDescBy, dayMs, List.filter]
  have hc := C10_falsy_today_values "p" _ 0 _ hout
  exact ⟨hc.1 ⟨7200000, 0⟩ rfl rfl, hc.2 ⟨1, 3600000, 3600000, none, none⟩ rfl rfl⟩

/-- Counterexample to C5 as stated: in `get_sleep_stages` the stage name
is produced by a plain dict map, so the unmapped code 9999 yields a
missing name (pandas NaN, modelled `none`), not the synthesized label
"Unknown (9999)" — name resolution does not use the fallback in every
place a code is mapped to a name. -/
theorem C5_counterexample :
    get_sleep_stages
        ⟨"p", some { sleep_stages_table := [⟨1, 9999, 0, 600000⟩] }⟩ 1 =
      .ok [⟨9999, 0, 600000, 10, none⟩] ∧
    (none : Option String) ≠ some ("Unknown (" ++ toString (9999 : ℤ) ++ ")") := by
  constructor
  · norm_num [get_sleep_stages, connection, Except.map, sortAscBy,
      stagesFiltered, toStageOut, SLEEP_STAGES, List.filter]
  · simp

/-- C5 (amended): code→name resolution through
`dict.get(code, f"Unknown ({code})")` never fails — an unmapped code
resolves to the synthesized label embedding the raw code, and rows with
unknown codes group under that label (count 2 for two code-9999
workouts) — in the stage summary and the workout accessors; the per-stage
listing `get_sleep_stages`, however, maps the code dict directly, leaving
an unmapped code's name missing while still returning the row. -/
theorem C5_unknown_code_resolution :
    (∀ c : Int, EXERCISE_TYPES c = none →
      exerciseLabel c = "Unknown (" ++ toString c ++ ")") ∧
    (∀ (c : Int) (nm : String), EXERCISE_TYPES c = some nm →
      exerciseLabel c = nm) ∧
    (∀ c : Int, SLEEP_STAGES c = none →
      stageLabel c = "Unknown (" ++ toString c ++ ")") ∧
    (∀ (c : Int) (nm : String), SLEEP_STAGES c = some nm →
      stageLabel c = nm) ∧
    exerciseLabel 9999 = "Unknown (9999)" ∧
    stageLabel 9999 = "Unknown (9999)" ∧
    (∀ (p : String) (s : DBState) (sid : Int) (out : List SleepStageOut),
      get_sleep_stages ⟨p, some s⟩ sid = .ok out →
      out.length =
        (s.sleep_stages_table.filter fun r => decide (r.parent_key = sid)).length ∧
      ∀ row ∈ out, row.stage_name = SLEEP_STAGES row.stage_type) ∧
    get_workout_summary
        ⟨"p", some { exercise_session_record_table :=
          [⟨1, 0, 600000, 9999, none, none⟩, ⟨2, 0, 1200000, 9999, none, none⟩] }⟩
        30 86400000 =
      .ok ⟨2, 30, [("Unknown (9999)", ⟨2, 30, 15⟩)]⟩ := by
  refine ⟨?_, ?_, ?_, ?_, rfl, rfl, ?_, ?_⟩
  · intro c hc
    rw [exerciseLabel, hc, Option.getD_none]
  · intro c nm hc
    rw [exerciseLabel, hc, Option.getD_some]
  · intro c hc
    rw [stageLabel, hc, Option.getD_none]
  · intro c nm hc
    rw [stageLabel, hc, Option.getD_some]
  · intro p s sid out hout
    simp only [get_sleep_stages, connection, Except.map] at hout
    injection hout with hbody
    subst hbody
    constructor
    · rw [List.length_map, sortAscBy]
      exact List.length_insertionSort _ _
    · intro row hrow
      rw [List.mem_map] at hrow
      obtain ⟨r, _, rfl⟩ := hrow
      rfl
  · norm_num [get_workout_summary, get_workouts, connection, Except.map,
      workoutsFiltered, toExerciseOut, sortDescBy, sortedKeysAsc, sortAscBy,
      windowStart, dayMs, dictInsert, round1, roundHalfEven, List.filter]
    decide

/-- Witness for C5 (amended): the fallback-label clauses applied at an
unmapped and a mapped code, and the stage-listing clause applied to a
one-row store. -/
theorem C5_unknown_code_resolution_witness :
    exerciseLabel 7777 = "Unknown (7777)" ∧ exerciseLabel 53 = "Walking" ∧
    stageLabel 8888 = "Unknown (8888)" ∧ stageLabel 4 = "Deep" :=
  ⟨C5_unknown_code_resolution.1 7777 (by decide),
   C5_unknown_code_resolution.2.1 53 "Walking" (by decide),
   C5_unknown_code_resolution.2.2.1 8888 (by decide),
   C5_unknown_code_resolution.2.2.2.1 4 "Deep" (by decide)⟩

theorem round1_zero : round1 0 = 0 := by
  norm_num [round1, roundHalfEven]

/-- Counterexample to C3 as stated: the snapshot's sleep value is the
session duration in hours rounded to 1 decimal, not the duration itself:
for a 7h10m session ending today the snapshot reports 7.2 hours, which
differs from the exact duration 43/6 hours. -/
theorem C3_counterexample :
    get_today_summary
        ⟨"p", some { sleep_session_record_table :=
          [⟨1, 3600000, 29400000, none, none⟩] }⟩ 0 =
      .ok ⟨0, 36/5, 0, 0, none⟩ ∧
    ((29400000 - 3600000 : ℤ) : ℚ) / 3600000 ≠ 36/5 := by
  constructor
  · norm_num [get_today_summary, connection, Except.map, todayStepsRows,
      todaySleepPick, todaySleepCandidates, todayHRRows, todayWorkoutRows,
      todaySpo2Pick, hrJoin, sortDescBy, dayMs, round1, roundHalfEven,
      List.filter]
  · norm_num

/-- C3 (amended): the today snapshot's sleep value is the duration in
hours, rounded to 1 decimal, of the most recently ended sleep session
whose end instant lies in `[today 00:00, tomorrow 00:00)`: a session is a
candidate iff its end lies in that half-open window (so one that started
before today but ends today counts, and one still ongoing does not), and
every sub-lookup independently yields its zero/absent default when no
rows match. -/
theorem C3_today_snapshot :
    ∀ (p : String) (s : DBState) (todayMs : Millis) (out : TodaySummary),
      get_today_summary ⟨p, some s⟩ todayMs = .ok out →
      (∀ r : SleepSessionRow, r ∈ todaySleepCandidates s todayMs ↔
        r ∈ s.sleep_session_record_table ∧ todayMs ≤ r.end_time ∧
          r.end_time < todayMs + dayMs) ∧
      (∀ r ∈ s.sleep_session_record_table,
        todayMs ≤ r.end_time → r.end_time < todayMs + dayMs →
        (∀ x ∈ s.sleep_session_record_table, x ≠ r →
          todayMs ≤ x.end_time → x.end_time < todayMs + dayMs →
          x.end_time < r.end_time) →
        out.sleep_hours = round1 (((r.end_time - r.start_time : ℤ) : ℚ) / 3600000)) ∧
      (todayStepsRows s todayMs = [] → out.steps = 0) ∧
      (todaySleepCandidates s todayMs = [] → out.sleep_hours = 0) ∧
      (todayHRRows s todayMs = [] → out.avg_hr = 0) ∧
      (todayWorkoutRows s todayMs = [] → out.workouts = 0) ∧
      ((s.oxygen_saturation_record_table.filter fun r =>
          decide (todayMs ≤ r.time) && decide (r.time < todayMs + dayMs)) = [] →
        out.spo2 = none) := by
  intro p s todayMs out hout
  simp only [get_today_summary, connection, Except.map] at hout
  injection hout with hbody
  subst hbody
  refine ⟨?_, ?_, ?_, ?_, ?_, ?_, ?_⟩
  · intro r
    simp [todaySleepCandidates, List.mem_filter]
  · intro r hrtab hlo hhi hmax
    have hrc : r ∈ todaySleepCandidates s todayMs := by
      simp [todaySleepCandidates, List.mem_filter, hrtab, hlo, hhi]
    have hmax' : ∀ x ∈ todaySleepCandidates s todayMs, x ≠ r →
        x.end_time < r.end_time := by
      intro x hx hne
      rw [todaySleepCandidates, List.mem_filter] at hx
      obtain ⟨hxtab, hxb⟩ := hx
      simp only [Bool.and_eq_true, decide_eq_true_eq] at hxb
      exact hmax x hxtab hne hxb.1 hxb.2
    have hpick : todaySleepPick s todayMs = some r :=
      head_sortDescBy_strictMax _ _ r hrc hmax'
    dsimp only
    rw [hpick]
    dsimp only
    by_cases hz : ((r.end_time - r.start_time : ℤ) : ℚ) / 3600000 = 0
    · rw [if_pos hz, hz, round1_zero]
    · rw [if_neg hz]
  · intro hempty
    dsimp only
    rw [hempty]
    simp
  · intro hempty
    dsimp only
    rw [todaySleepPick, hempty]
    simp [sortDescBy]
  · intro hempty
    dsimp only
    rw [hempty]
    simp
  · intro hempty
    dsimp only
    rw [hempty]
    simp
  · intro hempty
    dsimp only
    rw [todaySpo2Pick, hempty]
    simp [sortDescBy]

/-- Witness for C3 (amended): a session from 22:00 yesterday to 06:00
today is selected over a still-ongoing one, giving 8.0 hours. -/
theorem C3_today_snapshot_witness :
    (TodaySummary.mk 0 8 0 0 none).sleep_hours =
      round1 (((21600000 - (-7200000) : ℤ) : ℚ) / 3600000) := by
  have hout : get_today_summary
      ⟨"p", some { sleep_session_record_table :=
        [⟨1, -7200000, 21600000, none, none⟩,
         ⟨2, 82800000, 90000000, none, none⟩] }⟩ 0 =
      .ok ⟨0, 8, 0, 0, none⟩ := by
    norm_num [get_today_summary, connection, Except.map, todayStepsRows,
      todaySleepPick, todaySleepCandidates, todayHRRows, todayWorkoutRows,
      todaySpo2Pick, hrJoin, sortDescBy, dayMs, round1, roundHalfEven,
      List.filter]
  refine (C3_today_snapshot "p" _ 0 _ hout).2.1
    ⟨1, -7200000, 21600000, none, none⟩ (by simp) (by decide) (by decide) ?_
  intro x hx hne hlo hhi
  simp only [List.mem_cons, List.not_mem_nil, or_false] at hx
  rcases hx with hx | hx
  · exact absurd hx hne
  · subst hx
    exact absurd hhi (by decide)

/-- A Python dict built by inserting one entry per group key, with
pairwise-distinct resolved keys, lists the groups in iteration order. -/
theorem grouped_dict_eq {β : Type} (f : Int → String) (g : Int → β)
    (cs : List Int) (hnd : (cs.map f).Nodup) :
    cs.foldl (fun acc c => dictInsert (f c) (g c) acc) [] =
      cs.map fun c => (f c, g c) := by
  simpa using foldl_dictInsert f g cs [] (by simp) hnd

/-- C4: the sleep-stage summary groups a session's stages by stage code
(keys ascending), sums `duration_minutes` per code, and labels each group
via the stage lookup with the `"Unknown (<code>)"` fallback — stated as a
full description of the output under the hypothesis that the resolved
labels are pairwise distinct (its dict is keyed by label); the example
session with stages Light 0-2h and Deep 2-4h yields
`{Light: 120, Deep: 120}` minutes, and a session with zero recorded
stages yields the empty mapping. -/
theorem C4_sleep_stage_summary :
    (∀ (p : String) (s : DBState) (sid : Int) (out : List (String × ℚ)),
      get_sleep_stage_summary ⟨p, some s⟩ sid = .ok out →
      (stagesFiltered s sid = [] → out = []) ∧
      (((sortedKeysAsc ((stagesFiltered s sid).map fun r => r.stage_type)).map
          stageLabel).Nodup →
        out = (sortedKeysAsc ((stagesFiltered s sid).map fun r => r.stage_type)).map
          fun c => (stageLabel c,
            (((stagesFiltered s sid).filter fun r =>
                decide (r.stage_type = c)).map fun r =>
              ((r.stage_end_time - r.stage_start_time : ℤ) : ℚ) / 60000).sum))) ∧
    get_sleep_stage_summary
        ⟨"p", some { sleep_stages_table :=
          [⟨1, 1, 0, 7200000⟩, ⟨1, 4, 7200000, 14400000⟩] }⟩ 1 =
      .ok [("Light", 120), ("Deep", 120)] := by
  constructor
  · intro p s sid out hout
    simp only [get_sleep_stage_summary, get_sleep_stages, connection,
      Except.map] at hout
    injection hout with hbody
    subst hbody
    have hSperm := sortAscBy_perm (fun r : SleepStageRow => r.stage_start_time)
      (stagesFiltered s sid)
    constructor
    · intro hempty
      simp [hempty, sortAscBy]
    · intro hnd
      by_cases hF : stagesFiltered s sid = []
      · simp [hF, sortAscBy, sortedKeysAsc]
      · have hcodes : sortedKeysAsc
            (((sortAscBy (fun r : SleepStageRow => r.stage_start_time)
              (stagesFiltered s sid)).map toStageOut).map fun q => q.stage_type) =
            sortedKeysAsc ((stagesFiltered s sid).map fun r => r.stage_type) := by
          rw [List.map_map]
          exact sortedKeysAsc_congr (hSperm.map _)
        have hne : ¬ ((sortAscBy (fun r : SleepStageRow => r.stage_start_time)
            (stagesFiltered s sid)).map toStageOut).isEmpty = true := by
          rw [List.isEmpty_iff, List.map_eq_nil_iff]
          intro hnil
          apply hF
          have hlen := hSperm.length_eq
          rw [hnil] at hlen
          exact List.length_eq_zero.mp (by simpa using hlen.symm)
        rw [if_neg hne]
        have hnd' : ((sortedKeysAsc
            (((sortAscBy (fun r : SleepStageRow => r.stage_start_time)
              (stagesFiltered s sid)).map toStageOut).map fun q => q.stage_type)).map
            stageLabel).Nodup := by
          rw [hcodes]
          exact hnd
        refine (grouped_dict_eq stageLabel _ _ hnd').trans ?_
        rw [hcodes]
        refine List.map_congr_left ?_
        intro c hc
        have hsum : ((((sortAscBy (fun r : SleepStageRow => r.stage_start_time)
            (stagesFiltered s sid)).map toStageOut).filter fun q =>
              decide (q.stage_type = c)).map fun q => q.duration_minutes).sum =
            (((stagesFiltered s sid).filter fun r =>
              decide (r.stage_type = c)).map fun r =>
              ((r.stage_end_time - r.stage_start_time : ℤ) : ℚ) / 60000).sum := by
          rw [List.filter_map, List.map_map]
          exact ((hSperm.filter _).map _).sum_eq
        rw [hsum]
  · norm_num [get_sleep_stage_summary, get_sleep_stages, connection,
      stagesFiltered, toStageOut, sortAscBy, sortedKeysAsc, dictInsert,
      stageLabel, SLEEP_STAGES, Except.map, List.dedup, List.filter,
      List.foldl]
    decide

/-- Witness for C4: the grouping description applied to the example
session, with the label-distinctness hypothesis checked by computation. -/
theorem C4_sleep_stage_summary_witness :
    [("Light", (120 : ℚ)), ("Deep", 120)] =
      (sortedKeysAsc ((stagesFiltered { sleep_stages_table :=
        [⟨1, 1, 0, 7200000⟩, ⟨1, 4, 7200000, 14400000⟩] } 1).map
          fun r => r.stage_type)).map
        fun c => (stageLabel c,
          (((stagesFiltered { sleep_stages_table :=
              [⟨1, 1, 0, 7200000⟩, ⟨1, 4, 7200000, 14400000⟩] } 1).filter
            fun r => decide (r.stage_type = c)).map fun r =>
            ((r.stage_end_time - r.stage_start_time : ℤ) : ℚ) / 60000).sum) :=
  (C4_sleep_stage_summary.1 "p" _ 1 _ C4_sleep_stage_summary.2).2 (by decide)

/-- Counterexample to C7 as stated: the per-type dict is keyed by the
resolved display name, and `EXERCISE_TYPES` maps both 30 and 61 to
"Hiking"; with one 10-minute code-30 workout and one 20-minute code-61
workout in the window, the two groups collide and only the later group's
stats survive — no `by_type` entry reports the code-30 group's 10-minute
total, although both groups are present. -/
theorem C7_counterexample :
    get_workout_summary
        ⟨"p", some { exercise_session_record_table :=
          [⟨1, 1000, 601000, 30, none, none⟩, ⟨2, 2000, 1202000, 61, none, none⟩] }⟩
        30 86400000 =
      .ok ⟨2, 30, [("Hiking", ⟨1, 20, 20⟩)]⟩ ∧
    (30 : ℤ) ∈ (workoutsFiltered { exercise_session_record_table :=
        [⟨1, 1000, 601000, 30, none, none⟩, ⟨2, 2000, 1202000, 61, none, none⟩] }
        30 86400000 none).map (fun r => r.exercise_type) ∧
    (61 : ℤ) ∈ (workoutsFiltered { exercise_session_record_table :=
        [⟨1, 1000, 601000, 30, none, none⟩, ⟨2, 2000, 1202000, 61, none, none⟩] }
        30 86400000 none).map (fun r => r.exercise_type) ∧
    ¬ ∃ st : WorkoutTypeStats,
        (exerciseLabel 30, st) ∈ [("Hiking", WorkoutTypeStats.mk 1 20 20)] ∧
        st.total_minutes = 10 := by
  refine ⟨?_, by decide, by decide, ?_⟩
  · norm_num [get_workout_summary, get_workouts, connection, Except.map,
      workoutsFiltered, toExerciseOut, sortDescBy, sortedKeysAsc, sortAscBy,
      windowStart, dayMs, dictInsert, round1, roundHalfEven, List.filter]
    decide
  · rintro ⟨st, hmem, htot⟩
    simp only [List.mem_singleton, Prod.mk.injEq] at hmem
    rw [hmem.2] at htot
    norm_num at htot

/-- C7 (amended): the workout summary over an empty window is exactly
`{total_workouts: 0, total_minutes: 0, by_type: {}}`; otherwise it groups
the window's sessions by exercise-type code (keys ascending) and—under
the hypothesis that the resolved display names are pairwise distinct,
since the dict is keyed by name and distinct codes may share one—reports
per group the count, total minutes rounded to 1 decimal and mean minutes
rounded to 1 decimal, while the overall totals are the count and
once-rounded summed minutes over all sessions of the window. -/
theorem C7_workout_summary :
    ∀ (p : String) (s : DBState) (days : ℕ) (endMs : Millis)
      (out : WorkoutSummary),
      get_workout_summary ⟨p, some s⟩ days endMs = .ok out →
      (workoutsFiltered s days endMs none = [] → out = ⟨0, 0, []⟩) ∧
      out.total_workouts = (workoutsFiltered s days endMs none).length ∧
      (workoutsFiltered s days endMs none ≠ [] →
        out.total_minutes = round1
          (((workoutsFiltered s days endMs none).map fun r =>
            ((r.end_time - r.start_time : ℤ) : ℚ) / 60000).sum)) ∧
      (((sortedKeysAsc ((workoutsFiltered s days endMs none).map
          fun r => r.exercise_type)).map exerciseLabel).Nodup →
        out.by_type = (sortedKeysAsc ((workoutsFiltered s days endMs none).map
            fun r => r.exercise_type)).map fun c =>
          (exerciseLabel c,
            ⟨((workoutsFiltered s days endMs none).filter fun r =>
                decide (r.exercise_type = c)).length,
             round1 ((((workoutsFiltered s days endMs none).filter fun r =>
                decide (r.exercise_type = c)).map fun r =>
                ((r.end_time - r.start_time : ℤ) : ℚ) / 60000).sum),
             round1 ((((workoutsFiltered s days endMs none).filter fun r =>
                decide (r.exercise_type = c)).map fun r =>
                ((r.end_time - r.start_time : ℤ) : ℚ) / 60000).sum /
               (((workoutsFiltered s days endMs none).filter fun r =>
                decide (r.exercise_type = c)).length : ℚ))⟩)) := by
  intro p s days endMs out hout
  simp only [get_workout_summary, get_workouts, connection, Except.map] at hout
  injection hout with hbody
  subst hbody
  have hperm := sortDescBy_perm (fun w : ExerciseOut => w.start_time)
    ((workoutsFiltered s days endMs none).map toExerciseOut)
  by_cases hW : workoutsFiltered s days endMs none = []
  · refine ⟨fun _ => ?_, ?_, fun hne => absurd hW hne, fun _ => ?_⟩ <;>
      simp [hW, sortDescBy, sortAscBy, sortedKeysAsc]
  · have hne : ¬ ((sortDescBy (fun w : ExerciseOut => w.start_time)
        ((workoutsFiltered s days endMs none).map toExerciseOut)).isEmpty = true) := by
      rw [List.isEmpty_iff]
      intro hnil
      apply hW
      have hlen := hperm.length_eq
      rw [hnil] at hlen
      have : ((workoutsFiltered s days endMs none).map toExerciseOut).length = 0 := by
        simpa using hlen.symm
      rw [List.length_map] at this
      exact List.length_eq_zero.mp this
    refine ⟨fun h => absurd h hW, ?_, fun _ => ?_, ?_⟩
    · rw [if_neg hne]
      dsimp only
      rw [hperm.length_eq, List.length_map]
    · rw [if_neg hne]
      dsimp only
      have h1 := (hperm.map (fun w : ExerciseOut => w.duration_minutes)).sum_eq
      rw [h1, List.map_map]
      rfl
    · intro hnd
      rw [if_neg hne]
      dsimp only
      have hMp : ((workoutsFiltered s days endMs none).map toExerciseOut).map
          (fun w : ExerciseOut => w.exercise_type) =
          (workoutsFiltered s days endMs none).map (fun r => r.exercise_type) := by
        rw [List.map_map]
        rfl
      have hp := hperm.map (fun w : ExerciseOut => w.exercise_type)
      rw [hMp] at hp
      have hcodes : sortedKeysAsc ((sortDescBy (fun w : ExerciseOut => w.start_time)
          ((workoutsFiltered s days endMs none).map toExerciseOut)).map
            fun w => w.exercise_type) =
          sortedKeysAsc ((workoutsFiltered s days endMs none).map
            fun r => r.exercise_type) :=
        sortedKeysAsc_congr hp
      have hnd' : ((sortedKeysAsc ((sortDescBy (fun w : ExerciseOut => w.start_time)
          ((workoutsFiltered s days endMs none).map toExerciseOut)).map
            fun w => w.exercise_type)).map exerciseLabel).Nodup := by
        rw [hcodes]
        exact hnd
      refine (grouped_dict_eq exerciseLabel _ _ hnd').trans ?_
      rw [hcodes]
      refine List.map_congr_left ?_
      intro c hc
      have hfperm : List.Perm ((sortDescBy (fun w : ExerciseOut => w.start_time)
          ((workoutsFiltered s days endMs none).map toExerciseOut)).filter
            fun w => decide (w.exercise_type = c))
          (((workoutsFiltered s days endMs none).filter fun r =>
            decide (r.exercise_type = c)).map toExerciseOut) := by
        have h2 := hperm.filter (fun w : ExerciseOut => decide (w.exercise_type = c))
        rw [List.filter_map] at h2
        exact h2
      have hlen : ((sortDescBy (fun w : ExerciseOut => w.start_time)
          ((workoutsFiltered s days endMs none).map toExerciseOut)).filter
            fun w => decide (w.exercise_type = c)).length =
          ((workoutsFiltered s days endMs none).filter fun r =>
            decide (r.exercise_type = c)).length := by
        rw [hfperm.length_eq, List.length_map]
      have hsum : (((sortDescBy (fun w : ExerciseOut => w.start_time)
          ((workoutsFiltered s days endMs none).map toExerciseOut)).filter
            fun w => decide (w.exercise_type = c)).map
            fun w => w.duration_minutes).sum =
          (((workoutsFiltered s days endMs none).filter fun r =>
            decide (r.exercise_type = c)).map fun r =>
            ((r.end_time - r.start_time : ℤ) : ℚ) / 60000).sum := by
        have h3 := (hfperm.map (fun w : ExerciseOut => w.duration_minutes)).sum_eq
        rw [h3, List.map_map]
        rfl
      rw [hlen, hsum]

/-- Witness for C7 (amended): a single Walking workout in the window. -/
theorem C7_workout_summary_witness :
    (WorkoutSummary.mk 1 30 [("Walking", ⟨1, 30, 30⟩)]).total_workouts =
      (workoutsFiltered { exercise_session_record_table :=
        [⟨1, 1000, 1801000, 53, none, none⟩] } 7 86400000 none).length := by
  have hout : get_workout_summary
      ⟨"p", some { exercise_session_record_table :=
        [⟨1, 1000, 1801000, 53, none, none⟩] }⟩ 7 86400000 =
      .ok ⟨1, 30, [("Walking", ⟨1, 30, 30⟩)]⟩ := by
    norm_num [get_workout_summary, get_workouts, connection, Except.map,
      workoutsFiltered, toExerciseOut, sortDescBy, sortedKeysAsc, sortAscBy,
      windowStart, dayMs, dictInsert, round1, roundHalfEven, List.filter]
    decide
  exact (C7_workout_summary "p" _ 7 86400000 _ hout).2.1

theorem isEmpty_map {α β : Type} (f : α → β) (l : List α) :
    (l.map f).isEmpty = l.isEmpty := by
  cases l <;> rfl

/-- The store with every heart-rate sample's own instant `epoch_millis`
rewritten arbitrarily (parent key and bpm kept). -/
def retimeSamples (f : HRSeriesRow → Millis) (s : DBState) : DBState :=
  { s with heart_rate_record_series_table :=
      s.heart_rate_record_series_table.map fun r =>
        ⟨r.parent_key, r.beats_per_minute, f r⟩ }

theorem join_map_retime (records : List HRRecordRow) (f : HRSeriesRow → Millis) :
    ∀ series : List HRSeriesRow,
      (series.map fun r =>
          (⟨r.parent_key, r.beats_per_minute, f r⟩ : HRSeriesRow)).flatMap
        (fun smp => (records.filter fun h =>
          decide (smp.parent_key = h.row_id)).map fun h => (smp, h)) =
      (series.flatMap (fun smp => (records.filter fun h =>
          decide (smp.parent_key = h.row_id)).map fun h => (smp, h))).map
        fun q => (⟨q.1.parent_key, q.1.beats_per_minute, f q.1⟩, q.2)
  | [] => by simp
  | a :: t => by
    simp only [List.map_cons, List.flatMap_cons, List.map_append]
    rw [join_map_retime records f t]
    congr 1
    rw [List.map_map]
    rfl

theorem hrJoin_retime (f : HRSeriesRow → Millis) (s : DBState) :
    hrJoin (retimeSamples f s) =
      (hrJoin s).map fun q =>
        (⟨q.1.parent_key, q.1.beats_per_minute, f q.1⟩, q.2) :=
  join_map_retime s.heart_rate_record_table f s.heart_rate_record_series_table

theorem hr_window_rows_retime (f : HRSeriesRow → Millis) (s : DBState)
    (a b : Millis) :
    hr_window_rows (retimeSamples f s) a b =
      (hr_window_rows s a b).map fun q =>
        (⟨q.1.parent_key, q.1.beats_per_minute, f q.1⟩, q.2) := by
  unfold hr_window_rows
  rw [hrJoin_retime, List.filter_map]
  rfl

/-- C6: the heart-rate aggregates join samples to recording sessions by
parent id and keep a joined row iff the parent session's start instant
lies in the closed window; the sample's own instant is never consulted —
rewriting every sample's `epoch_millis` arbitrarily changes neither the
period statistics nor the daily aggregate. -/
theorem C6_heart_rate_join :
    ∀ (p : String) (s : DBState) (days : ℕ) (endMs : Millis),
      (∀ (smp : HRSeriesRow) (h : HRRecordRow),
        (smp, h) ∈ hr_window_rows s (windowStart days endMs) endMs ↔
          smp ∈ s.heart_rate_record_series_table ∧
          h ∈ s.heart_rate_record_table ∧ smp.parent_key = h.row_id ∧
          windowStart days endMs ≤ h.start_time ∧ h.start_time ≤ endMs) ∧
      (∀ f : HRSeriesRow → Millis,
        get_heart_rate_stats ⟨p, some (retimeSamples f s)⟩ days endMs =
          get_heart_rate_stats ⟨p, some s⟩ days endMs ∧
        get_daily_heart_rate ⟨p, some (retimeSamples f s)⟩ days endMs =
          get_daily_heart_rate ⟨p, some s⟩ days endMs) := by
  intro p s days endMs
  refine ⟨fun smp h => mem_hr_window_rows, fun f => ⟨?_, ?_⟩⟩
  · simp only [get_heart_rate_stats, connection, Except.map,
      hr_window_rows_retime, isEmpty_map, List.map_map, List.length_map]
    rfl
  · simp only [get_daily_heart_rate, connection, Except.map,
      hr_window_rows_retime, List.filter_map, List.map_map, List.length_map]
    rfl

theorem mem_sleepSessionsFiltered {s : DBState} {days : ℕ} {endMs : Millis}
    {r : SleepSessionRow} :
    r ∈ sleepSessionsFiltered s days endMs ↔
      r ∈ s.sleep_session_record_table ∧
      windowStart days endMs ≤ r.start_time ∧ r.start_time ≤ endMs := by
  simp [sleepSessionsFiltered, List.mem_filter]

theorem mem_stepsFiltered {s : DBState} {days : ℕ} {endMs : Millis}
    {r : StepsRow} :
    r ∈ stepsFiltered s days endMs ↔
      r ∈ s.steps_record_table ∧
      windowStart days endMs ≤ r.local_date_time_start_time ∧
      r.local_date_time_start_time ≤ endMs := by
  simp [stepsFiltered, List.mem_filter]

theorem mem_workoutsFiltered_none {s : DBState} {days : ℕ} {endMs : Millis}
    {r : ExerciseRow} :
    r ∈ workoutsFiltered s days endMs none ↔
      r ∈ s.exercise_session_record_table ∧
      windowStart days endMs ≤ r.start_time ∧ r.start_time ≤ endMs := by
  simp [workoutsFiltered, List.mem_filter]

theorem mem_spo2Filtered {s : DBState} {days : ℕ} {endMs : Millis}
    {r : Spo2Row} :
    r ∈ spo2Filtered s days endMs ↔
      r ∈ s.oxygen_saturation_record_table ∧
      windowStart days endMs ≤ r.time ∧ r.time ≤ endMs := by
  simp [spo2Filtered, List.mem_filter]

theorem mem_todayWorkoutRows {s : DBState} {todayMs : Millis}
    {r : ExerciseRow} :
    r ∈ todayWorkoutRows s todayMs ↔
      r ∈ s.exercise_session_record_table ∧
      todayMs ≤ r.start_time ∧ r.start_time < todayMs + dayMs := by
  simp [todayWorkoutRows, List.mem_filter]

theorem mem_todayStepsRows {s : DBState} {todayMs : Millis} {r : StepsRow} :
    r ∈ todayStepsRows s todayMs ↔
      r ∈ s.steps_record_table ∧
      todayMs ≤ r.local_date_time_start_time ∧
      r.local_date_time_start_time < todayMs + dayMs := by
  simp [todayStepsRows, List.mem_filter]

/-- C1: `start = end - days` whole days in epoch ms; every period
accessor (sleep sessions, daily steps, heart-rate stats, workouts, SpO2
readings) filters by a closed interval `start ≤ t ≤ end` on its filtering
instant, so a record whose instant is exactly `start` or exactly `end` is
included; only the Today Snapshot uses an exclusive upper bound. -/
theorem C1_window_correctness :
    ∀ (days : ℕ) (endMs : Millis) (p : String) (s : DBState),
      windowStart days endMs = endMs - days * 86400000 ∧
      (∀ out : List SleepSessionOut,
        get_sleep_sessions ⟨p, some s⟩ days endMs = .ok out →
        ∀ r ∈ s.sleep_session_record_table,
          (toSleepOut r ∈ out ↔
            windowStart days endMs ≤ r.start_time ∧ r.start_time ≤ endMs)) ∧
      (∀ r ∈ s.steps_record_table,
        (r ∈ stepsFiltered s days endMs ↔
          windowStart days endMs ≤ r.local_date_time_start_time ∧
          r.local_date_time_start_time ≤ endMs)) ∧
      (∀ out : List (Int × Int),
        get_daily_steps ⟨p, some s⟩ days endMs = .ok out →
        ∀ r ∈ stepsFiltered s days endMs,
          (dayOf r.local_date_time_start_time,
            (((stepsFiltered s days endMs).filter fun x =>
              decide (dayOf x.local_date_time_start_time =
                dayOf r.local_date_time_start_time)).map fun x => x.count).sum)
            ∈ out) ∧
      (∀ (smp : HRSeriesRow) (h : HRRecordRow),
        (smp, h) ∈ hr_window_rows s (windowStart days endMs) endMs ↔
          smp ∈ s.heart_rate_record_series_table ∧
          h ∈ s.heart_rate_record_table ∧ smp.parent_key = h.row_id ∧
          windowStart days endMs ≤ h.start_time ∧ h.start_time ≤ endMs) ∧
      (∀ st : HRStats, get_heart_rate_stats ⟨p, some s⟩ days endMs = .ok st →
        st.sample_count =
          (hr_window_rows s (windowStart days endMs) endMs).length) ∧
      (∀ out : List ExerciseOut,
        get_workouts ⟨p, some s⟩ days endMs none = .ok out →
        ∀ r ∈ s.exercise_session_record_table,
          (toExerciseOut r ∈ out ↔
            windowStart days endMs ≤ r.start_time ∧ r.start_time ≤ endMs)) ∧
      (∀ out : List Spo2Out,
        get_spo2_readings ⟨p, some s⟩ days endMs = .ok out →
        ∀ r ∈ s.oxygen_saturation_record_table,
          ((⟨r.time, dayOf r.time, r.percentage⟩ : Spo2Out) ∈ out ↔
            windowStart days endMs ≤ r.time ∧ r.time ≤ endMs)) ∧
      (∀ (todayMs : Millis) (r : ExerciseRow),
        r ∈ todayWorkoutRows s todayMs ↔
          r ∈ s.exercise_session_record_table ∧
          todayMs ≤ r.start_time ∧ r.start_time < todayMs + dayMs) ∧
      (∀ (todayMs : Millis) (r : StepsRow), r ∈ s.steps_record_table →
        r.local_date_time_start_time = todayMs + dayMs →
        r ∉ todayStepsRows s todayMs) := by
  intro days endMs p s
  refine ⟨rfl, ?_, ?_, ?_, fun smp h => mem_hr_window_rows, ?_, ?_, ?_,
    fun todayMs r => mem_todayWorkoutRows, ?_⟩
  · intro out hout r hr
    simp only [get_sleep_sessions, connection, Except.map] at hout
    injection hout with hbody
    subst hbody
    constructor
    · intro hmem
      rw [mem_sortDescBy, List.mem_map] at hmem
      obtain ⟨r', hr', heq⟩ := hmem
      have hst : r'.start_time = r.start_time :=
        congrArg (fun o : SleepSessionOut => o.start_time) heq
      obtain ⟨_, hb1, hb2⟩ := mem_sleepSessionsFiltered.mp hr'
      exact ⟨hst ▸ hb1, hst ▸ hb2⟩
    · rintro ⟨h1, h2⟩
      rw [mem_sortDescBy, List.mem_map]
      exact ⟨r, mem_sleepSessionsFiltered.mpr ⟨hr, h1, h2⟩, rfl⟩
  · intro r hr
    rw [mem_stepsFiltered]
    simp [hr]
  · intro out hout r hr
    simp only [get_daily_steps, connection, Except.map] at hout
    injection hout with hbody
    subst hbody
    exact List.mem_map_of_mem _
      (mem_sortedKeysDesc.mpr (List.mem_map_of_mem _ hr))
  · intro st hout
    simp only [get_heart_rate_stats, connection, Except.map] at hout
    injection hout with hbody
    subst hbody
    by_cases hemp :
        (hr_window_rows s (windowStart days endMs) endMs).isEmpty = true
    · rw [if_pos hemp]
      rw [List.isEmpty_iff] at hemp
      rw [hemp]
      rfl
    · rw [if_neg hemp]
  · intro out hout r hr
    simp only [get_workouts, connection, Except.map] at hout
    injection hout with hbody
    subst hbody
    constructor
    · intro hmem
      rw [mem_sortDescBy, List.mem_map] at hmem
      obtain ⟨r', hr', heq⟩ := hmem
      have hst : r'.start_time = r.start_time :=
        congrArg (fun o : ExerciseOut => o.start_time) heq
      obtain ⟨_, hb1, hb2⟩ := mem_workoutsFiltered_none.mp hr'
      exact ⟨hst ▸ hb1, hst ▸ hb2⟩
    · rintro ⟨h1, h2⟩
      rw [mem_sortDescBy, List.mem_map]
      exact ⟨r, mem_workoutsFiltered_none.mpr ⟨hr, h1, h2⟩, rfl⟩
  · intro out hout r hr
    simp only [get_spo2_readings, connection, Except.map] at hout
    injection hout with hbody
    subst hbody
    constructor
    · intro hmem
      rw [List.mem_map] at hmem
      obtain ⟨r', hr', heq⟩ := hmem
      rw [mem_sortDescBy] at hr'
      have hst : r'.time = r.time :=
        congrArg (fun o : Spo2Out => o.time) heq
      obtain ⟨_, hb1, hb2⟩ := mem_spo2Filtered.mp hr'
      exact ⟨hst ▸ hb1, hst ▸ hb2⟩
    · rintro ⟨h1, h2⟩
      rw [List.mem_map]
      exact ⟨r, mem_sortDescBy.mpr (mem_spo2Filtered.mpr ⟨hr, h1, h2⟩), rfl⟩
  · intro todayMs r _ heq hmem
    obtain ⟨_, _, hlt⟩ := mem_todayStepsRows.mp hmem
    rw [heq] at hlt
    exact lt_irrefl _ hlt

/-- Witness for C1: with `days = 1`, `end = 172800000`, the window starts
at 86400000; a sleep session starting exactly at the window start and an
SpO2 reading exactly at the window end are both included. -/
theorem C1_window_correctness_witness :
    toSleepOut ⟨1, 86400000, 115200000, none, none⟩ ∈
      sortDescBy (fun o : SleepSessionOut => o.start_time)
        ((sleepSessionsFiltered
          { sleep_session_record_table := [⟨1, 86400000, 115200000, none, none⟩],
            oxygen_saturation_record_table := [⟨172800000, 97⟩] } 1
          172800000).map toSleepOut) ∧
    (⟨172800000, dayOf 172800000, 97⟩ : Spo2Out) ∈
      (sortDescBy (fun r : Spo2Row => r.time)
        (spo2Filtered
          { sleep_session_record_table := [⟨1, 86400000, 115200000, none, none⟩],
            oxygen_saturation_record_table := [⟨172800000, 97⟩] } 1
          172800000)).map fun r => (⟨r.time, dayOf r.time, r.percentage⟩ : Spo2Out) := by
  constructor
  · exact ((C1_window_correctness 1 172800000 "p" _).2.1 _ rfl
      ⟨1, 86400000, 115200000, none, none⟩ (by simp)).mpr
      ⟨by decide, by decide⟩
  · exact ((C1_window_correctness 1 172800000 "p" _).2.2.2.2.2.2.2.1 _ rfl
      ⟨172800000, 97⟩ (by simp)).mpr ⟨by decide, by decide⟩

end SHealth
